import Mathlib

/-!
Shallow embedding of the chat transcript reconciliation logic of
`src/windows/OverlayWindow.tsx` (the Lumen chat overlay).

The transcript-relevant state of the component is the `messages` list, the
`isLoading` flag (true exactly while one exchange is pending) and the
`error` banner.  Message identity is `id : number | null` in TypeScript:
`null` marks the optimistic local draft, `-1` marks a streamed provisional
turn, any other integer a persisted, confirmed message.  We model it as
`Option Int` with `none` for `null`.

Operations embedded from the source (first variant of the file):
  * `hydrate`          — `loadChatHistory` / `setMessages(history)`
  * `submitDraft`      — the synchronous head of `handleSendMessage`
                         (guard + optimistic append), lines 190-208
  * `resolveExchange`  — the success continuation, lines 219-228
  * `failExchange`     — the catch branch, lines 229-232
  * `onStreamedTurn`   — the `assistant-reply-turn` listener, lines 74-88
  * `onProactiveMessage` — the `assistant-message` listener, lines 91-93
The second overlay-window variant (same file, after the separator) differs
only in its resolution/failure sweeps, embedded as `resolveExchangeV2` and
`failExchangeV2` (lines 586-594: `prev.slice(0, -1)`).
-/

namespace Lumen

/-- Message role, `'user' | 'assistant'` in the source. -/
inductive Role where
  | user
  | assistant
deriving DecidableEq, Repr

/-- The `ChatMessage` record of OverlayWindow.tsx.  `id = none` models the
TypeScript `null` sentinel (optimistic draft), `some (-1)` the streamed-turn
sentinel, any other `some n` a confirmed persisted id. -/
structure ChatMessage where
  id : Option Int
  role : Role
  content : String
  created_at : String
  image_data : Option String
deriving DecidableEq, Repr

/-- The transcript-relevant component state: the message list, the pending
flag and the error banner. -/
structure OverlayState where
  messages : List ChatMessage
  isLoading : Bool
  error : Option String
deriving DecidableEq, Repr

/-- JavaScript `String.prototype.trim` over the character list: drop leading
and trailing whitespace.  (Kernel-computable model of the `.trim()` calls in
the source; the library `String.trim` agrees on these inputs but does not
reduce in the kernel.) -/
def trimChars (l : List Char) : List Char :=
  ((l.dropWhile Char.isWhitespace).reverse.dropWhile Char.isWhitespace).reverse

/-- JavaScript `.trim()` on a string. -/
def jsTrim (s : String) : String :=
  ⟨trimChars s.data⟩

/-- The filter predicate `m.id !== null && m.id !== -1` used by both the
success sweep and the failure sweep of `handleSendMessage`. -/
def keepConfirmed (m : ChatMessage) : Bool :=
  m.id != (none : Option Int) && m.id != some (-1)

/-- Initial component state: `useState<ChatMessage[]>([])`, not loading, no
error. -/
def initState : OverlayState :=
  { messages := [], isLoading := false, error := none }

/-- `loadChatHistory`: `setMessages(history)` replaces the transcript
wholesale. -/
def hydrate (history : List ChatMessage) (s : OverlayState) : OverlayState :=
  { s with messages := history }

/-- The optimistic `tempMessage` built by `handleSendMessage`: `id: null`,
role user, trimmed text, the attached image if any. -/
def draftEntry (text : String) (img : Option String) (now : String) : ChatMessage :=
  { id := none, role := Role.user, content := jsTrim text, created_at := now,
    image_data := img }

/-- Synchronous head of `handleSendMessage`: guard
`if (!inputValue.trim() || isLoading) return;` then clear the error, set
loading and append the optimistic draft.  `text`/`img` are the values of
`inputValue`/`capturedImage` at click time, `now` the timestamp. -/
def submitDraft (text : String) (img : Option String) (now : String)
    (s : OverlayState) : OverlayState :=
  if (jsTrim text == "") || s.isLoading then s
  else
    { s with
      messages := s.messages ++ [draftEntry text img now],
      isLoading := true,
      error := none }

/-- A streamed-turn entry: `id: -1`, role assistant. -/
def turnEntry (payload now : String) : ChatMessage :=
  { id := some (-1), role := Role.assistant, content := payload,
    created_at := now, image_data := none }

/-- The deduplication test of the `assistant-reply-turn` listener:
`last?.id === -1 && last.content === event.payload`. -/
def isDupTurn (payload : String) (prev : List ChatMessage) : Bool :=
  match prev.getLast? with
  | some last => last.id == some (-1) && last.content == payload
  | none => false

/-- The `assistant-reply-turn` listener body: return `prev` on a duplicate,
otherwise append a fresh provisional turn. -/
def streamedTurnUpdate (payload now : String) (prev : List ChatMessage) :
    List ChatMessage :=
  if isDupTurn payload prev then prev else prev ++ [turnEntry payload now]

/-- `onStreamedTurn` lifted to the component state (the listener only calls
`setMessages`). -/
def onStreamedTurn (payload now : String) (s : OverlayState) : OverlayState :=
  { s with messages := streamedTurnUpdate payload now s.messages }

/-- The `assistant-message` listener:
`prev.filter(m => m.id !== event.payload.id)` then append the payload. -/
def onProactiveMessage (e : ChatMessage) (s : OverlayState) : OverlayState :=
  { s with messages := (s.messages.filter fun m => m.id != e.id) ++ [e] }

/-- Success continuation of `handleSendMessage` (first variant): sweep out
every `id: null` / `id: -1` entry, append the confirmed pair, clear the
loading flag (`finally`). -/
def resolveExchange (u a : ChatMessage) (s : OverlayState) : OverlayState :=
  { s with
    messages := s.messages.filter keepConfirmed ++ [u, a],
    isLoading := false }

/-- Catch branch of `handleSendMessage` (first variant): record the error,
sweep out every `id: null` / `id: -1` entry, clear the loading flag. -/
def failExchange (err : String) (s : OverlayState) : OverlayState :=
  { s with
    messages := s.messages.filter keepConfirmed,
    isLoading := false,
    error := some err }

/-- Success continuation of the second overlay-window variant:
`prev.slice(0, -1)` then append the confirmed pair. -/
def resolveExchangeV2 (u a : ChatMessage) (s : OverlayState) : OverlayState :=
  { s with
    messages := s.messages.dropLast ++ [u, a],
    isLoading := false }

/-- Catch branch of the second overlay-window variant: `prev.slice(0, -1)`. -/
def failExchangeV2 (err : String) (s : OverlayState) : OverlayState :=
  { s with
    messages := s.messages.dropLast,
    isLoading := false,
    error := some err }

/-- The send button's enabled condition (first variant, line 429):
`!((!inputValue.trim() && !capturedImage) || isLoading)`. -/
def sendButtonEnabled (text : String) (img : Option String) (loading : Bool) :
    Bool :=
  !(((jsTrim text == "") && (img == none)) || loading)

/-- One reconciler operation, for whole-sequence invariants. -/
inductive Op where
  | hydrateOp (history : List ChatMessage)
  | submitOp (text : String) (img : Option String) (now : String)
  | streamOp (text : String) (now : String)
  | resolvedOp (u a : ChatMessage)
  | failedOp (err : String)
  | proactiveOp (e : ChatMessage)
deriving Repr

/-- Apply one operation to the component state. -/
def applyOp (op : Op) (s : OverlayState) : OverlayState :=
  match op with
  | .hydrateOp history => hydrate history s
  | .submitOp text img now => submitDraft text img now s
  | .streamOp text now => onStreamedTurn text now s
  | .resolvedOp u a => resolveExchange u a s
  | .failedOp err => failExchange err s
  | .proactiveOp e => onProactiveMessage e s

/-- Run a sequence of operations from a state. -/
def run (ops : List Op) (s : OverlayState) : OverlayState :=
  ops.foldl (fun t op => applyOp op t) s

/-- Well-formed operation: entries delivered by the backend (hydrated
history, the resolved pair, proactive messages) carry confirmed persisted
ids, never the local `null` / `-1` sentinels. -/
def opWf : Op → Bool
  | .hydrateOp history => history.all keepConfirmed
  | .resolvedOp u a => keepConfirmed u && keepConfirmed a
  | .proactiveOp e => keepConfirmed e
  | _ => true

/-- Number of optimistic (`id = null`) draft entries in a transcript. -/
def draftCount (l : List ChatMessage) : Nat :=
  l.countP fun m => m.id == (none : Option Int)

/-- Invariant relating drafts to the pending flag: at most one optimistic
draft while an exchange is pending, none otherwise. -/
def draftInv (s : OverlayState) : Prop :=
  draftCount s.messages ≤ cond s.isLoading 1 0

/-- Sample confirmed history entry used by concrete witnesses. -/
def sampleHist : ChatMessage :=
  { id := some 1, role := Role.assistant, content := "old", created_at := "t",
    image_data := none }

/-- Sample confirmed user entry used by concrete witnesses. -/
def sampleUser : ChatMessage :=
  { id := some 10, role := Role.user, content := "q", created_at := "t",
    image_data := none }

/-- Sample confirmed assistant entry used by concrete witnesses. -/
def sampleAssistant : ChatMessage :=
  { id := some 11, role := Role.assistant, content := "r", created_at := "t",
    image_data := none }

/-- Second sample confirmed entry (distinct id) used by concrete
witnesses. -/
def sampleHistB : ChatMessage :=
  { id := some 2, role := Role.assistant, content := "keep", created_at := "t",
    image_data := none }

/-- A proactive update carrying the same confirmed id as `sampleHist`. -/
def sampleUpdate : ChatMessage :=
  { id := some 1, role := Role.assistant, content := "new", created_at := "t9",
    image_data := none }

/-- `keepConfirmed` spelt out as a proposition. -/
theorem keepConfirmed_eq_true_iff (m : ChatMessage) :
    keepConfirmed m = true ↔ m.id ≠ none ∧ m.id ≠ some (-1) := by
  simp [keepConfirmed]

/-- The optimistic draft is swept out by the reconciliation filter. -/
theorem keepConfirmed_draftEntry (text : String) (img : Option String)
    (now : String) : keepConfirmed (draftEntry text img now) = false := rfl

/-- A streamed turn is swept out by the reconciliation filter. -/
theorem keepConfirmed_turnEntry (payload now : String) :
    keepConfirmed (turnEntry payload now) = false := rfl

/-- A transcript of confirmed entries passes the sweep unchanged. -/
theorem filter_keepConfirmed_of_all (l : List ChatMessage)
    (h : ∀ m ∈ l, keepConfirmed m = true) :
    l.filter keepConfirmed = l :=
  List.filter_eq_self.mpr h

/-- An accepted submission (nonempty trimmed text, no exchange pending)
clears the error, raises the pending flag and appends the optimistic
draft. -/
theorem submitDraft_accepted (text : String) (img : Option String)
    (now : String) (s : OverlayState)
    (htext : (jsTrim text == "") = false) (hload : s.isLoading = false) :
    submitDraft text img now s =
      { s with
        messages := s.messages ++ [draftEntry text img now],
        isLoading := true,
        error := none } := by
  simp [submitDraft, htext, hload]

/-- Drafts are counted additively across appends. -/
theorem draftCount_append (l₁ l₂ : List ChatMessage) :
    draftCount (l₁ ++ l₂) = draftCount l₁ + draftCount l₂ :=
  List.countP_append _ _ _

/-- A transcript of confirmed entries holds no draft. -/
theorem draftCount_eq_zero_of_confirmed (l : List ChatMessage)
    (h : ∀ m ∈ l, keepConfirmed m = true) : draftCount l = 0 := by
  refine List.countP_eq_zero.mpr fun m hm => ?_
  have := (keepConfirmed_eq_true_iff m).mp (h m hm)
  simp [this.1]

/-- The reconciliation sweep leaves no draft behind. -/
theorem draftCount_filter_keepConfirmed (l : List ChatMessage) :
    draftCount (l.filter keepConfirmed) = 0 :=
  draftCount_eq_zero_of_confirmed _ fun _ hm => List.of_mem_filter hm

/-- Filtering can only lower the draft count. -/
theorem draftCount_filter_le (p : ChatMessage → Bool) (l : List ChatMessage) :
    draftCount (l.filter p) ≤ draftCount l :=
  (List.filter_sublist l).countP_le _

/-- Every well-formed operation preserves the draft invariant. -/
theorem applyOp_draftInv (op : Op) (s : OverlayState) (hwf : opWf op = true)
    (h : draftInv s) : draftInv (applyOp op s) := by
  cases op with
  | hydrateOp history =>
      simp only [opWf, List.all_eq_true] at hwf
      simp only [applyOp, hydrate, draftInv]
      simp [draftCount_eq_zero_of_confirmed history hwf]
  | submitOp text img now =>
      simp only [applyOp, submitDraft]
      split
      · exact h
      · next hc =>
          simp only [Bool.or_eq_true, not_or, Bool.not_eq_true] at hc
          simp only [draftInv] at h ⊢
          rw [hc.2] at h
          simp only [cond_false, Nat.le_zero] at h
          have hone : draftCount [draftEntry text img now] = 1 := rfl
          rw [draftCount_append, h, hone]
          simp
  | streamOp text now =>
      simp only [applyOp, onStreamedTurn, streamedTurnUpdate, draftInv] at h ⊢
      split
      · exact h
      · simpa [draftCount_append, draftCount] using h
  | resolvedOp u a =>
      simp only [opWf, Bool.and_eq_true] at hwf
      simp only [applyOp, resolveExchange, draftInv]
      have h2 : draftCount [u, a] = 0 :=
        draftCount_eq_zero_of_confirmed _ (by
          intro m hm
          simp only [List.mem_cons, List.not_mem_nil, or_false] at hm
          rcases hm with rfl | rfl
          · exact hwf.1
          · exact hwf.2)
      simp [draftCount_append, draftCount_filter_keepConfirmed, h2]
  | failedOp err =>
      simp only [applyOp, failExchange, draftInv]
      simp [draftCount_filter_keepConfirmed]
  | proactiveOp e =>
      simp only [opWf] at hwf
      simp only [applyOp, onProactiveMessage, draftInv] at h ⊢
      have h2 : draftCount [e] = 0 :=
        draftCount_eq_zero_of_confirmed _ (by
          intro m hm
          simp only [List.mem_singleton] at hm
          subst hm
          exact hwf)
      calc draftCount ((s.messages.filter fun m => m.id != e.id) ++ [e])
          = draftCount (s.messages.filter fun m => m.id != e.id) + draftCount [e] :=
            draftCount_append _ _
        _ ≤ draftCount s.messages + 0 :=
            Nat.add_le_add (draftCount_filter_le _ _) (Nat.le_of_eq h2)
        _ ≤ cond s.isLoading 1 0 := by simpa using h

/-- Running a well-formed operation sequence preserves the draft
invariant. -/
theorem run_draftInv (ops : List Op) (s : OverlayState)
    (hwf : ∀ op ∈ ops, opWf op = true) (h : draftInv s) :
    draftInv (run ops s) := by
  induction ops generalizing s with
  | nil => exact h
  | cons op rest ih =>
      simp only [run, List.foldl_cons]
      exact ih (applyOp op s)
        (fun o ho => hwf o (List.mem_cons_of_mem _ ho))
        (applyOp_draftInv op s (hwf op (List.mem_cons_self _ _)) h)

/-- The `assistant-reply-turn` listener appends when the tail's
dedup test fails. -/
theorem streamedTurnUpdate_append (payload now : String)
    (l : List ChatMessage) (last : ChatMessage)
    (h : (last.id == some (-1) && last.content == payload) = false) :
    streamedTurnUpdate payload now (l ++ [last])
      = (l ++ [last]) ++ [turnEntry payload now] := by
  have hdup : isDupTurn payload (l ++ [last]) = false := by
    simp only [isDupTurn, List.getLast?_concat]
    exact h
  simp [streamedTurnUpdate, hdup]

/-- Claim C1: from a hydrated (all-confirmed) history, the scenario
`submitDraft "hi"` → `onStreamedTurn "H"` → `onStreamedTurn "Hello"` →
`onExchangeResolved (u, a)` ends with transcript `history ++ [u, a]`: the
optimistic draft and both provisional turns added during the exchange are
swept out and the confirmed pair is appended in order. -/
theorem c1_exchange_scenario (history : List ChatMessage) (u a : ChatMessage)
    (t0 t1 t2 : String)
    (hconf : ∀ m ∈ history, keepConfirmed m = true) :
    (resolveExchange u a
        (onStreamedTurn "Hello" t2
          (onStreamedTurn "H" t1
            (submitDraft "hi" none t0 (hydrate history initState))))).messages
      = history ++ [u, a] := by
  have hsub := submitDraft_accepted "hi" none t0 (hydrate history initState)
    (by decide) rfl
  rw [hsub]
  simp only [resolveExchange, onStreamedTurn, hydrate, initState]
  rw [streamedTurnUpdate_append "H" t1 history (draftEntry "hi" none t0) rfl]
  rw [streamedTurnUpdate_append "Hello" t2
    (history ++ [draftEntry "hi" none t0]) (turnEntry "H" t1) rfl]
  simp [List.filter_append, keepConfirmed_draftEntry, keepConfirmed_turnEntry,
    filter_keepConfirmed_of_all history hconf]

/-- Claim C1 witness: the scenario run from the singleton confirmed
history. -/
theorem c1_exchange_scenario_witness :
    (∀ m ∈ [sampleHist], keepConfirmed m = true) ∧
    (resolveExchange sampleUser sampleAssistant
        (onStreamedTurn "Hello" "t2"
          (onStreamedTurn "H" "t1"
            (submitDraft "hi" none "t0"
              (hydrate [sampleHist] initState))))).messages
      = [sampleHist] ++ [sampleUser, sampleAssistant] :=
  ⟨by decide,
   c1_exchange_scenario [sampleHist] sampleUser sampleAssistant "t0" "t1" "t2"
    (by decide)⟩

/-- Claim C2 counterexample: a provisional turn that predates the submit is
also swept out by the failure rollback, so the transcript is not restored
exactly to its pre-submit state. -/
theorem c2_rollback_counterexample :
    (failExchange "boom"
        (submitDraft "hi" none "t1"
          (onStreamedTurn "X" "t0" initState))).messages
      ≠ (onStreamedTurn "X" "t0" initState).messages := by decide

/-- Claim C2 (amended): when the pre-submit transcript holds only confirmed
entries, a failed exchange restores it exactly, removes no confirmed entry,
and records the error. -/
theorem c2_rollback_amended (s : OverlayState) (text : String)
    (img : Option String) (now err : String)
    (hconf : ∀ m ∈ s.messages, keepConfirmed m = true)
    (htext : (jsTrim text == "") = false)
    (hidle : s.isLoading = false) :
    (failExchange err (submitDraft text img now s)).messages = s.messages ∧
    (failExchange err (submitDraft text img now s)).error = some err := by
  rw [submitDraft_accepted text img now s htext hidle]
  refine ⟨?_, rfl⟩
  simp [failExchange, List.filter_append, keepConfirmed_draftEntry,
    filter_keepConfirmed_of_all s.messages hconf]

/-- Claim C2 witness: rollback over a singleton confirmed history. -/
theorem c2_rollback_amended_witness :
    (failExchange "boom" (submitDraft "hi" none "t0"
        { messages := [sampleHist], isLoading := false, error := none })).messages
      = [sampleHist] ∧
    (failExchange "boom" (submitDraft "hi" none "t0"
        { messages := [sampleHist], isLoading := false, error := none })).error
      = some "boom" :=
  c2_rollback_amended
    { messages := [sampleHist], isLoading := false, error := none }
    "hi" none "t0" "boom" (by decide) (by decide) rfl

/-- Claim C3 counterexample: after `submitDraft "hi"` then
`onStreamedTurn "H"` the draft (`id = none`) entry is present but is not
the tail entry of the transcript. -/
theorem c3_draft_tail_counterexample :
    (run [Op.submitOp "hi" none "t0", Op.streamOp "H" "t1"] initState).messages
      = [draftEntry "hi" none "t0", turnEntry "H" "t1"] ∧
    (draftEntry "hi" none "t0").id = none ∧
    (run [Op.submitOp "hi" none "t0", Op.streamOp "H" "t1"]
        initState).messages.getLast?
      ≠ some (draftEntry "hi" none "t0") := by
  refine ⟨by decide, rfl, by decide⟩

/-- Claim C3 (amended): over every well-formed operation sequence from the
empty transcript, the transcript never holds more than one `id = none`
draft, and holds none at all whenever no exchange is pending (the draft
need not be the tail entry: streamed turns and proactive messages append
after it). -/
theorem c3_draft_unique_amended (ops : List Op)
    (hwf : ∀ op ∈ ops, opWf op = true) :
    draftCount (run ops initState).messages ≤ 1 ∧
    ((run ops initState).isLoading = false →
      draftCount (run ops initState).messages = 0) := by
  have h := run_draftInv ops initState hwf
    (by simp [draftInv, draftCount, initState])
  simp only [draftInv] at h
  constructor
  · cases hl : (run ops initState).isLoading
    · rw [hl] at h
      simp only [cond_false, Nat.le_zero] at h
      simp [h]
    · rw [hl] at h
      simpa using h
  · intro hl
    rw [hl] at h
    simpa using h

/-- Claim C3 witness: the bound evaluated on a two-operation run. -/
theorem c3_draft_unique_amended_witness :
    (∀ op ∈ [Op.submitOp "hi" none "t0", Op.streamOp "H" "t1"],
      opWf op = true) ∧
    draftCount (run [Op.submitOp "hi" none "t0", Op.streamOp "H" "t1"]
      initState).messages ≤ 1 :=
  ⟨by decide,
   (c3_draft_unique_amended [Op.submitOp "hi" none "t0", Op.streamOp "H" "t1"]
      (by decide)).1⟩

/-- Claim C4 counterexample: a proactive update whose id matches a
non-tail entry is not replaced in place — it moves to the tail, reordering
the transcript. -/
theorem c4_proactive_counterexample :
    (onProactiveMessage sampleUpdate
        { messages := [sampleHist, sampleHistB], isLoading := false,
          error := none }).messages
      = [sampleHistB, sampleUpdate] ∧
    (onProactiveMessage sampleUpdate
        { messages := [sampleHist, sampleHistB], isLoading := false,
          error := none }).messages
      ≠ [sampleUpdate, sampleHistB] := by
  exact ⟨by decide, by decide⟩

/-- Claim C4 (amended): `onProactiveMessage` upserts by identity with
move-to-tail semantics — every same-id entry is removed and the new entry
is appended at the tail; when no entry matches this is a pure append, and
the replacement is in place only when the matching entry already is the
tail. -/
theorem c4_proactive_amended (s : OverlayState) (e : ChatMessage) :
    ((∀ m ∈ s.messages, m.id ≠ e.id) →
      (onProactiveMessage e s).messages = s.messages ++ [e]) ∧
    (∀ l t, s.messages = l ++ [t] → t.id = e.id → (∀ m ∈ l, m.id ≠ e.id) →
      (onProactiveMessage e s).messages = l ++ [e]) := by
  constructor
  · intro h
    simp only [onProactiveMessage]
    rw [List.filter_eq_self.mpr]
    intro m hm
    simpa using h m hm
  · intro l t hmsg ht hl
    have hfl : (l.filter fun m => m.id != e.id) = l := by
      rw [List.filter_eq_self.mpr]
      intro m hm
      simpa using hl m hm
    have hft : (t.id != e.id) = false := by simp [ht]
    simp [onProactiveMessage, hmsg, List.filter_append, hfl, hft]

/-- Claim C4 witness: the append case and the in-place-at-tail case of the
amended upsert, evaluated on concrete transcripts. -/
theorem c4_proactive_amended_witness :
    (onProactiveMessage sampleUpdate
        { messages := [sampleHistB], isLoading := false,
          error := none }).messages
      = [sampleHistB] ++ [sampleUpdate] ∧
    (onProactiveMessage sampleUpdate
        { messages := [sampleHistB, sampleHist], isLoading := false,
          error := none }).messages
      = [sampleHistB] ++ [sampleUpdate] :=
  ⟨(c4_proactive_amended
      { messages := [sampleHistB], isLoading := false, error := none }
      sampleUpdate).1 (by decide),
   (c4_proactive_amended
      { messages := [sampleHistB, sampleHist], isLoading := false,
        error := none }
      sampleUpdate).2 [sampleHistB] sampleHist rfl (by decide) (by decide)⟩

/-- Claim C5: at the failing input — whitespace-only text with an attached
image and no exchange pending — `handleSendMessage` is a no-op (no
transcript mutation, no request) even though the send button's own enabled
condition accepts exactly this input. -/
theorem c5_image_only_rejected :
    submitDraft " " (some "img") "t0" initState = initState ∧
    sendButtonEnabled " " (some "img") false = true := by
  exact ⟨by decide, by decide⟩

/-- Claim C6 counterexample: a second submit while an exchange is pending
leaves the state literally unchanged, with the error channel still empty —
no `StateConflictError` (or any error) is raised or recorded. -/
theorem c6_second_submit_counterexample :
    submitDraft "again" none "t1" (submitDraft "hi" none "t0" initState)
      = submitDraft "hi" none "t0" initState ∧
    (submitDraft "again" none "t1"
        (submitDraft "hi" none "t0" initState)).error = none := by
  exact ⟨by decide, by decide⟩

/-- Claim C6 (amended): a second submit while an exchange is pending is
rejected synchronously as a silent no-op — the whole state, transcript and
error channel included, is unchanged from its state after the first
draft. -/
theorem c6_second_submit_amended (s : OverlayState) (text : String)
    (img : Option String) (now : String) (hpending : s.isLoading = true) :
    submitDraft text img now s = s := by
  simp [submitDraft, hpending]

/-- Claim C6 witness: the silent rejection on a concrete pending state. -/
theorem c6_second_submit_amended_witness :
    submitDraft "again" none "t1"
        { messages := [sampleHist], isLoading := true, error := none }
      = { messages := [sampleHist], isLoading := true, error := none } :=
  c6_second_submit_amended
    { messages := [sampleHist], isLoading := true, error := none }
    "again" none "t1" rfl

/-- Claim C7: when the tail entry is provisional with text `t`, a streamed
turn with the same text is a no-op while one with different text appends a
fresh provisional entry; and `onStreamedTurn` is idempotent, so two
consecutive pushes of the same text leave exactly one new provisional
entry. -/
theorem c7_streamed_turn_dedup (s : OverlayState) (t t2 now now2 : String) :
    (∀ last, s.messages.getLast? = some last → last.id = some (-1) →
        last.content = t →
      onStreamedTurn t now s = s ∧
      (t2 ≠ t →
        (onStreamedTurn t2 now s).messages
          = s.messages ++ [turnEntry t2 now])) ∧
    onStreamedTurn t now2 (onStreamedTurn t now s) = onStreamedTurn t now s := by
  constructor
  · intro last hl hid hcontent
    have hdup : isDupTurn t s.messages = true := by
      simp [isDupTurn, hl, hid, hcontent]
    constructor
    · simp [onStreamedTurn, streamedTurnUpdate, hdup]
    · intro hne
      have hc2 : (last.content == t2) = false := by
        rw [hcontent]
        exact beq_eq_false_iff_ne.mpr fun h => hne h.symm
      have hdup2 : isDupTurn t2 s.messages = false := by
        simp [isDupTurn, hl, hc2]
      simp [onStreamedTurn, streamedTurnUpdate, hdup2]
  · by_cases hdup : isDupTurn t s.messages = true
    · have h1 : onStreamedTurn t now s = s := by
        simp [onStreamedTurn, streamedTurnUpdate, hdup]
      rw [h1]
      simp [onStreamedTurn, streamedTurnUpdate, hdup]
    · rw [Bool.not_eq_true] at hdup
      have h1 : (onStreamedTurn t now s).messages
          = s.messages ++ [turnEntry t now] := by
        simp [onStreamedTurn, streamedTurnUpdate, hdup]
      have hdup1 : isDupTurn t (onStreamedTurn t now s).messages = true := by
        rw [h1]
        simp [isDupTurn, List.getLast?_concat, turnEntry]
      have h2 : streamedTurnUpdate t now2 (onStreamedTurn t now s).messages
          = (onStreamedTurn t now s).messages := by
        simp [streamedTurnUpdate, hdup1]
      show { onStreamedTurn t now s with
          messages :=
            streamedTurnUpdate t now2 (onStreamedTurn t now s).messages }
        = onStreamedTurn t now s
      rw [h2]

/-- Claim C7 witness: deduplication, fresh append and idempotence on
concrete transcripts. -/
theorem c7_streamed_turn_dedup_witness :
    onStreamedTurn "X" "t1"
        { messages := [turnEntry "X" "tx"], isLoading := false, error := none }
      = { messages := [turnEntry "X" "tx"], isLoading := false,
          error := none } ∧
    (onStreamedTurn "Y" "t1"
        { messages := [turnEntry "X" "tx"], isLoading := false,
          error := none }).messages
      = [turnEntry "X" "tx"] ++ [turnEntry "Y" "t1"] ∧
    onStreamedTurn "X" "t2" (onStreamedTurn "X" "t1" initState)
      = onStreamedTurn "X" "t1" initState := by
  refine ⟨?_, ?_, ?_⟩
  · exact ((c7_streamed_turn_dedup
      { messages := [turnEntry "X" "tx"], isLoading := false, error := none }
      "X" "Y" "t1" "t2").1 (turnEntry "X" "tx") rfl rfl rfl).1
  · exact ((c7_streamed_turn_dedup
      { messages := [turnEntry "X" "tx"], isLoading := false, error := none }
      "X" "Y" "t1" "t2").1 (turnEntry "X" "tx") rfl rfl rfl).2 (by decide)
  · exact (c7_streamed_turn_dedup initState "X" "Y" "t1" "t2").2

/-- Claim C8 counterexample: applying `onExchangeResolved` twice with the
same payload is not a no-op — the confirmed pair is appended a second
time. -/
theorem c8_resolve_idempotent_counterexample :
    resolveExchange sampleUser sampleAssistant
        (resolveExchange sampleUser sampleAssistant initState)
      ≠ resolveExchange sampleUser sampleAssistant initState := by decide

/-- Claim C8 (amended): `onExchangeResolved` is not idempotent — a
duplicate delivery of a confirmed pair appends the pair again after the
(now vacuous) sweep. -/
theorem c8_resolve_duplicate_amended (s : OverlayState) (u a : ChatMessage)
    (hu : keepConfirmed u = true) (ha : keepConfirmed a = true) :
    (resolveExchange u a (resolveExchange u a s)).messages
      = (resolveExchange u a s).messages ++ [u, a] := by
  have hfil : (s.messages.filter keepConfirmed).filter keepConfirmed
      = s.messages.filter keepConfirmed :=
    List.filter_eq_self.mpr fun m hm => List.of_mem_filter hm
  simp [resolveExchange, List.filter_append, hu, ha, hfil]

/-- Claim C8 witness: the duplicated pair on a concrete transcript. -/
theorem c8_resolve_duplicate_amended_witness :
    (resolveExchange sampleUser sampleAssistant
        (resolveExchange sampleUser sampleAssistant initState)).messages
      = (resolveExchange sampleUser sampleAssistant initState).messages
          ++ [sampleUser, sampleAssistant] :=
  c8_resolve_duplicate_amended initState sampleUser sampleAssistant
    (by decide) (by decide)

/-- Claim C9: streamed turns are not gated on a pending exchange — with no
exchange open, a non-duplicate turn still appends a provisional tail entry;
that entry survives the next `submitDraft` and is removed by the next
failure sweep, and by the next success sweep when the resolved pair is
confirmed. -/
theorem c9_stream_ungated (s : OverlayState) (t now text : String)
    (img : Option String) (now2 err : String)
    (_hidle : s.isLoading = false)
    (hdup : isDupTurn t s.messages = false) :
    (onStreamedTurn t now s).messages = s.messages ++ [turnEntry t now] ∧
    turnEntry t now
      ∈ (submitDraft text img now2 (onStreamedTurn t now s)).messages ∧
    (∀ m ∈ (failExchange err
        (submitDraft text img now2 (onStreamedTurn t now s))).messages,
      m.id ≠ some (-1)) ∧
    (∀ u a, keepConfirmed u = true → keepConfirmed a = true →
      ∀ m ∈ (resolveExchange u a
          (submitDraft text img now2 (onStreamedTurn t now s))).messages,
        m.id ≠ some (-1)) := by
  have h1 : (onStreamedTurn t now s).messages
      = s.messages ++ [turnEntry t now] := by
    simp [onStreamedTurn, streamedTurnUpdate, hdup]
  have hmem : turnEntry t now ∈ (onStreamedTurn t now s).messages := by
    rw [h1]
    exact List.mem_append_right _ (List.mem_singleton_self _)
  have hmem2 : ∀ s' : OverlayState, turnEntry t now ∈ s'.messages →
      turnEntry t now ∈ (submitDraft text img now2 s').messages := by
    intro s' hm
    simp only [submitDraft]
    split
    · exact hm
    · exact List.mem_append_left _ hm
  refine ⟨h1, hmem2 _ hmem, ?_, ?_⟩
  · intro m hm
    simp only [failExchange] at hm
    exact ((keepConfirmed_eq_true_iff m).mp (List.of_mem_filter hm)).2
  · intro u a hu ha m hm
    simp only [resolveExchange, List.mem_append] at hm
    rcases hm with hm | hm
    · exact ((keepConfirmed_eq_true_iff m).mp (List.of_mem_filter hm)).2
    · simp only [List.mem_cons, List.not_mem_nil, or_false] at hm
      rcases hm with rfl | rfl
      · exact ((keepConfirmed_eq_true_iff m).mp hu).2
      · exact ((keepConfirmed_eq_true_iff m).mp ha).2

/-- Claim C9 witness: a turn streamed while idle, evaluated concretely. -/
theorem c9_stream_ungated_witness :
    (onStreamedTurn "T" "t1" initState).messages
      = [] ++ [turnEntry "T" "t1"] ∧
    turnEntry "T" "t1"
      ∈ (submitDraft "hi" none "t2"
          (onStreamedTurn "T" "t1" initState)).messages :=
  ⟨(c9_stream_ungated initState "T" "t1" "hi" none "t2" "boom" rfl rfl).1,
   (c9_stream_ungated initState "T" "t1" "hi" none "t2" "boom" rfl rfl).2.1⟩

/-- Claim C10: on their common reachable states — a single `id = null`
draft at the tail over an otherwise confirmed transcript — the two
overlay-window variants' resolution and failure steps agree: sweeping every
`null` / `-1` id equals dropping the last entry, both on success and on
failure. -/
theorem c10_variants_agree (s : OverlayState) (l : List ChatMessage)
    (d u a : ChatMessage) (err : String)
    (hmsg : s.messages = l ++ [d]) (hd : d.id = none)
    (hconf : ∀ m ∈ l, keepConfirmed m = true) :
    resolveExchange u a s = resolveExchangeV2 u a s ∧
    failExchange err s = failExchangeV2 err s := by
  have hkd : keepConfirmed d = false := by simp [keepConfirmed, hd]
  have hfil : (l ++ [d]).filter keepConfirmed = l := by
    simp [List.filter_append, filter_keepConfirmed_of_all l hconf, hkd]
  constructor
  · simp [resolveExchange, resolveExchangeV2, hmsg, hfil]
  · simp [failExchange, failExchangeV2, hmsg, hfil]

/-- Claim C10 witness: the two variants evaluated on a concrete pending
transcript. -/
theorem c10_variants_agree_witness :
    resolveExchange sampleUser sampleAssistant
        { messages := [sampleHist, draftEntry "hi" none "t0"],
          isLoading := true, error := none }
      = resolveExchangeV2 sampleUser sampleAssistant
        { messages := [sampleHist, draftEntry "hi" none "t0"],
          isLoading := true, error := none } ∧
    failExchange "boom"
        { messages := [sampleHist, draftEntry "hi" none "t0"],
          isLoading := true, error := none }
      = failExchangeV2 "boom"
        { messages := [sampleHist, draftEntry "hi" none "t0"],
          isLoading := true, error := none } :=
  c10_variants_agree
    { messages := [sampleHist, draftEntry "hi" none "t0"],
      isLoading := true, error := none }
    [sampleHist] (draftEntry "hi" none "t0") sampleUser sampleAssistant
    "boom" rfl rfl (by decide)

end Lumen
